import Mathlib

/-
Verification of the cron job scheduling subsystem
(lib/aff4_objects/cronjobs.py).

The embedding models one persisted CronJob record (the AFF4 attributes
CRON_ARGS, DISABLED, CURRENT_FLOW_URN, LAST_RUN_TIME, LAST_RUN_STATUS,
STATE) together with the external Flow Executor (polling a flow's state,
starting a new flow) and the per-job lease used by CronManager.RunOnce.

Times are natural-number timestamps; elapsed times are integers, mirroring
`time.time() - start_time.AsSecondsFromEpoch()`.  A lifetime of 0 models an
unset lifetime (the source guards with `if lifetime and ...`, and a zero
Duration is falsy).
-/

set_option linter.unusedVariables false

/-- Status values of rdfvalue.CronJobRunStatus (LAST_RUN_STATUS attribute);
`unset` models the attribute being absent. -/
inductive CronJobStatus where
  | unset
  | ok
  | error
  | timeout
deriving DecidableEq, Repr

/-- The state of a flow as reported by the Flow Executor when polled
(runner.context.state): RUNNING, TERMINATED, or ERROR. -/
inductive FlowState where
  | running
  | terminated
  | error
deriving DecidableEq, Repr

/-- Exceptions that the modelled operations can raise:
`lockError` is aff4.LockError; `missingLastRun` is the AttributeError hit
when LAST_RUN_TIME is absent but `AsSecondsFromEpoch` is called on it;
`executorFailure` is any exception raised by flow.GRRFlow.StartFlow. -/
inductive CronError where
  | lockError
  | missingLastRun
  | executorFailure
deriving DecidableEq, Repr

/-- CreateCronJobFlowArgs as used by cronjobs.py: periodicity, lifetime
(0 = unset), allow_overruns, and the opaque flow specification
(flow_runner_args.flow_name plus flow_args). -/
structure CronArgs where
  periodicity : Nat
  lifetime : Nat
  allowOverruns : Bool
  flowName : String
  flowArgs : Nat
deriving DecidableEq, Repr

/-- A CronJob record: the persisted attributes of the AFF4 CronJob object.
`contState` is the opaque continuation blob (STATE attribute). -/
structure CronJobState where
  cronArgs : CronArgs
  disabled : Bool
  currentFlowUrn : Option Nat
  lastRunTime : Option Nat
  lastRunStatus : CronJobStatus
  contState : Nat
deriving DecidableEq, Repr

/-- The external Flow Executor: `poll` reports the state of the flow behind
a handle (aff4.FACTORY.Open on the flow urn, then runner.context.state);
`start` is the result of flow.GRRFlow.StartFlow — either a new flow urn or
an exception. -/
structure World where
  poll : Nat → FlowState
  start : Except Unit Nat

/-- The observable outcome of one CronJob operation: the final in-memory
record, the sequence of persisted snapshots (each Flush call; the Bool flags
whether that flush writes a newly Set terminal LAST_RUN_STATUS), the flows
force-terminated (handle, reason), the flow started (if any), the metric
increments (cron_job_timeout, cron_job_failure), the cron_job_latency
events recorded, and the exception raised (if any). -/
structure CronOutcome where
  job : CronJobState
  flushes : List (CronJobState × Bool)
  terminated : List (Nat × String)
  started : Option Nat
  timeoutInc : Bool
  failureInc : Bool
  latencyEvents : List Int
  raised : Option CronError
deriving DecidableEq, Repr

/-- An operation that touches the record but performs no external effect and
raises nothing. -/
def noEffect (j : CronJobState) : CronOutcome :=
  { job := j, flushes := [], terminated := [], started := none,
    timeoutInc := false, failureInc := false, latencyEvents := [],
    raised := none }

/-- CronJob.IsRunning: true iff CURRENT_FLOW_URN is set and polling that
flow reports RUNNING. -/
def IsRunning (w : World) (j : CronJobState) : Bool :=
  match j.currentFlowUrn with
  | some urn => w.poll urn = FlowState.running
  | none => false

/-- CronJob.DueToRun: disabled jobs are not due; then the record is due if
(LAST_RUN_TIME is absent or now is past its periodicity expiry) and
(allow_overruns, or no currently tracked flow). -/
def DueToRun (j : CronJobState) (now : Nat) : Bool :=
  if j.disabled then false
  else
    let timeCond : Bool :=
      match j.lastRunTime with
      | none => true
      | some t => decide (now > t + j.cronArgs.periodicity)
    if timeCond then
      if j.cronArgs.allowOverruns then true
      else if j.currentFlowUrn = none then true
      else false
    else false

/-- CronJob.StopCurrentRun: if a flow is tracked, terminate it with the
given reason, set LAST_RUN_STATUS to TIMEOUT, delete CURRENT_FLOW_URN and
Flush; otherwise do nothing. -/
def StopCurrentRun (reason : String) (j : CronJobState) : CronOutcome :=
  match j.currentFlowUrn with
  | none => noEffect j
  | some urn =>
      let j2 := { j with lastRunStatus := CronJobStatus.timeout,
                         currentFlowUrn := none }
      { job := j2, flushes := [(j2, true)], terminated := [(urn, reason)],
        started := none, timeoutInc := true, failureInc := false,
        latencyEvents := [], raised := none }

/-- CronJob.KillOldFlows: if the job is running, its lifetime is set and
`now - LAST_RUN_TIME` exceeds the lifetime, stop the current run, count a
cron_job_timeout and record a latency event, returning true; otherwise
return false.  If LAST_RUN_TIME is absent while running, the source crashes
on `start_time.AsSecondsFromEpoch()`; modelled as `missingLastRun`.
The timeout-metric increment happens in this function in the source; here
it is already part of the StopCurrentRun outcome. -/
def KillOldFlows (w : World) (now : Nat) (j : CronJobState) :
    Bool × CronOutcome :=
  if IsRunning w j then
    match j.lastRunTime with
    | none => (false, { noEffect j with raised := some CronError.missingLastRun })
    | some t0 =>
        let elapsed : Int := (now : Int) - (t0 : Int)
        if j.cronArgs.lifetime ≠ 0 ∧ elapsed > (j.cronArgs.lifetime : Int) then
          let o := StopCurrentRun "Cron lifetime exceeded." j
          (true, { o with latencyEvents := o.latencyEvents ++ [elapsed] })
        else (false, noEffect j)
  else (false, noEffect j)

/-- The tail of CronJob.Run after the reconcile step: if not forced and not
due, stop; otherwise StartFlow — on success set CURRENT_FLOW_URN and
LAST_RUN_TIME := now and Flush; on executor failure the exception
propagates with no further record change.  `acc` carries the effects of the
earlier steps, with `acc.job` the record as mutated so far (DueToRun reads
the mutated record). -/
def maybeStart (w : World) (now : Nat) (force : Bool) (acc : CronOutcome) :
    CronOutcome :=
  if force = false ∧ DueToRun acc.job now = false then acc
  else
    match w.start with
    | Except.error _ => { acc with raised := some CronError.executorFailure }
    | Except.ok h =>
        let j3 := { acc.job with currentFlowUrn := some h,
                                 lastRunTime := some now }
        { acc with job := j3, flushes := acc.flushes ++ [(j3, false)],
                   started := some h }

/-- CronJob.Run: raise LockError if not locked; return early if
KillOldFlows kills the overrunning flow (or raises); otherwise, if the
tracked flow has finished, record ERROR (with a cron_job_failure count) or
OK (with a latency event), delete the handle and Flush; finally, unless
neither forced nor due, start a new flow.  The AFF4Symlink written after a
successful start is an external object, not part of the record. -/
def Run (w : World) (now : Nat) (locked : Bool) (force : Bool)
    (j : CronJobState) : CronOutcome :=
  if locked = false then
    { noEffect j with raised := some CronError.lockError }
  else
    let ko := KillOldFlows w now j
    if ko.1 then ko.2
    else if ko.2.raised.isSome then ko.2
    else
      match j.currentFlowUrn with
      | none => maybeStart w now force (noEffect j)
      | some urn =>
          if w.poll urn = FlowState.running then
            maybeStart w now force (noEffect j)
          else if w.poll urn = FlowState.error then
            let j2 := { j with lastRunStatus := CronJobStatus.error,
                               currentFlowUrn := none }
            maybeStart w now force
              { noEffect j2 with flushes := [(j2, true)], failureInc := true }
          else
            match j.lastRunTime with
            | none =>
                let j1 := { j with lastRunStatus := CronJobStatus.ok }
                { noEffect j1 with raised := some CronError.missingLastRun }
            | some t0 =>
                let j2 := { j with lastRunStatus := CronJobStatus.ok,
                                   currentFlowUrn := none }
                let lat : List Int := [(now : Int) - (t0 : Int)]
                maybeStart w now force
                  { noEffect j2 with flushes := [(j2, true)], latencyEvents := lat }

/-- CronManager.EnableJob: opens the record with a plain read-write Open
(no lease is taken — the DISABLED attribute is not lock_protected), sets
DISABLED to 0 and closes.  `busyLease` models whether another process
currently holds the job's lease; the operation does not consult it. -/
def EnableJob (busyLease : Bool) (j : CronJobState) :
    Except CronError CronJobState :=
  Except.ok { j with disabled := false }

/-- CronManager.DisableJob: same plain read-write Open as EnableJob, sets
DISABLED to 1 and closes; the lease (`busyLease`) is never consulted. -/
def DisableJob (busyLease : Bool) (j : CronJobState) :
    Except CronError CronJobState :=
  Except.ok { j with disabled := true }

/-- A fresh CronJob record as aff4.FACTORY.Create returns it before any
Set: no flow tracked, no run history, status unset. -/
def freshCronJob (args : CronArgs) : CronJobState :=
  { cronArgs := args, disabled := false, currentFlowUrn := none,
    lastRunTime := none, lastRunStatus := CronJobStatus.unset, contState := 0 }

/-- CronManager.ScheduleFlow for a fixed job name: opens (or creates, with
force_new_version=False) the record, Sets CRON_ARGS only if it differs from
the stored value, Sets DISABLED only if it differs, and Closes.  `existing`
is the stored record for this job name, if any. -/
def ScheduleFlow (existing : Option CronJobState) (args : CronArgs)
    (disabled : Bool) : CronJobState :=
  match existing with
  | none =>
      let j := freshCronJob args
      { j with cronArgs := args, disabled := disabled }
  | some j =>
      let j1 := if args = j.cronArgs then j else { j with cronArgs := args }
      if disabled = j1.disabled then j1 else { j1 with disabled := disabled }

/-- One job as seen by CronManager.RunOnce: whether another process holds
its lease (OpenWithLock with blocking=False then raises LockError), the
Flow Executor's view of its flows, and the stored record. -/
structure JobEnv where
  busy : Bool
  world : World
  job : CronJobState

/-- The effects of one scheduling pass: the stored records after the pass
(in input order) and the number of cron_internal_error increments. -/
structure PassResult where
  jobs : List CronJobState
  internalErrors : Nat
deriving DecidableEq, Repr

/-- The body of CronManager.RunOnce for one job: on LockError, pass
(record untouched, nothing logged or counted); otherwise Run under the
lease, catching any exception, logging it and counting one
cron_internal_error; the with-block always releases the lease. -/
def processOne (now : Nat) (force : Bool) (e : JobEnv) : CronJobState × Nat :=
  if e.busy then (e.job, 0)
  else
    let o := Run e.world now true force e.job
    if o.raised.isSome then (o.job, 1) else (o.job, 0)

/-- CronManager.RunOnce over an explicit list of target jobs: each job is
processed in turn with processOne; no outcome of one job affects the
processing of the others. -/
def RunOnce (now : Nat) (force : Bool) : List JobEnv → PassResult
  | [] => { jobs := [], internalErrors := 0 }
  | e :: rest =>
      let p := processOne now force e
      let r := RunOnce now force rest
      { jobs := p.1 :: r.jobs, internalErrors := p.2 + r.internalErrors }

/-- Rendering of the spec sentence behind C1, for comparison with the
source's DueToRun: disabled jobs are never due; if last-run start time is
absent, the job is due; otherwise due iff now > last-run-start + periodicity
and (allow-overruns is true or the current-run handle is absent). -/
def dueToRunClaim (j : CronJobState) (now : Nat) : Bool :=
  if j.disabled then false
  else
    match j.lastRunTime with
    | none => true
    | some t =>
        decide (now > t + j.cronArgs.periodicity) &&
          (j.cronArgs.allowOverruns || decide (j.currentFlowUrn = none))

/-- A job spec with allow_overruns false. -/
def argsNoOverrun : CronArgs :=
  { periodicity := 100, lifetime := 5, allowOverruns := false,
    flowName := "SomeCronFlow", flowArgs := 0 }

/-- A record with a tracked flow but no recorded last-run start time. -/
def jobFlowNoLastRun : CronJobState :=
  { cronArgs := argsNoOverrun, disabled := false, currentFlowUrn := some 1,
    lastRunTime := none, lastRunStatus := CronJobStatus.unset, contState := 0 }

/-- C1 counterexample: on a record whose last-run start time is absent but
which tracks a current flow, with allow-overruns false, the claim says
DueToRun is true, while the source applies the overrun guard even in the
absent-last-run case and returns false. -/
theorem dueToRun_absent_lastrun_counterexample :
    dueToRunClaim jobFlowNoLastRun 7 = true ∧
      DueToRun jobFlowNoLastRun 7 = false := by
  exact ⟨rfl, rfl⟩

/-- C1 (amended): DueToRun returns false when the disabled flag is set, and
otherwise returns true iff (the last-run start time is absent OR now is
strictly greater than last-run-start plus periodicity) AND (allow-overruns
is true OR the current-run handle is absent) — the overrun guard applies
also when no last-run start time is recorded. -/
theorem dueToRun_formula (j : CronJobState) (now : Nat) :
    DueToRun j now = true ↔
      j.disabled = false ∧
      (j.lastRunTime = none ∨
        ∃ t, j.lastRunTime = some t ∧ now > t + j.cronArgs.periodicity) ∧
      (j.cronArgs.allowOverruns = true ∨ j.currentFlowUrn = none) := by
  unfold DueToRun
  cases hd : j.disabled <;> simp only [hd, if_true, if_false]
  · cases hl : j.lastRunTime with
    | none =>
        cases ho : j.cronArgs.allowOverruns <;>
          cases hc : j.currentFlowUrn <;> simp [ho, hc]
    | some t =>
        by_cases ht : now > t + j.cronArgs.periodicity
        · cases ho : j.cronArgs.allowOverruns <;>
            cases hc : j.currentFlowUrn <;> simp [ho, hc, ht]
        · simp [ht]
  · simp

/-- C10: calling Run on a record whose lease is not held raises LockError
before any state change: the record is unmodified, nothing is flushed, no
flow is terminated or started, and no metric or latency event is emitted —
for every world, time, force value and record. -/
theorem run_unlocked_raises (w : World) (now : Nat) (force : Bool)
    (j : CronJobState) :
    Run w now false force j =
      { job := j, flushes := [], terminated := [], started := none,
        timeoutInc := false, failureInc := false, latencyEvents := [],
        raised := some CronError.lockError } := by
  rfl

/-- A sample enabled record with run history, used as a concrete input. -/
def jobWithHistory : CronJobState :=
  { cronArgs := argsNoOverrun, disabled := false, currentFlowUrn := some 4,
    lastRunTime := some 10, lastRunStatus := CronJobStatus.ok, contState := 3 }

/-- C5 counterexample: DisableJob on a record whose lease is held by
another process (busyLease = true) succeeds and sets the disabled flag —
it opens the record without taking the lease — instead of surfacing a
"job busy" error as the claim states. -/
theorem disable_busy_counterexample :
    DisableJob true jobWithHistory =
      Except.ok { jobWithHistory with disabled := true } := by
  rfl

/-- C5 (amended): Enable and Disable set the disabled flag through a plain
read-write open without acquiring the job's lease; they succeed regardless
of whether another process holds the lease, and lease contention never
surfaces as an error from them. -/
theorem enable_disable_ignore_lease (busyLease : Bool) (j : CronJobState) :
    EnableJob busyLease j = Except.ok { j with disabled := false } ∧
      DisableJob busyLease j = Except.ok { j with disabled := true } := by
  exact ⟨rfl, rfl⟩

/-- C9: re-scheduling an existing record with the same job identifier —
with identical or changed spec — leaves the run-history fields (last-run
start time, last-run status, current-run handle, continuation state)
unchanged; and with an identical spec and disabled flag the record is
entirely unchanged. -/
theorem schedule_preserves_run_history (j : CronJobState) (args : CronArgs)
    (d : Bool) :
    (ScheduleFlow (some j) args d).currentFlowUrn = j.currentFlowUrn ∧
    (ScheduleFlow (some j) args d).lastRunTime = j.lastRunTime ∧
    (ScheduleFlow (some j) args d).lastRunStatus = j.lastRunStatus ∧
    (ScheduleFlow (some j) args d).contState = j.contState ∧
    (args = j.cronArgs → d = j.disabled → ScheduleFlow (some j) args d = j) := by
  unfold ScheduleFlow
  by_cases ha : args = j.cronArgs <;> by_cases hd : d = j.disabled <;>
    simp [ha, hd]

/-- C9 witness: re-scheduling the sample record with its own spec and
disabled flag returns it unchanged, and run-history fields are preserved. -/
theorem schedule_preserves_run_history_witness :
    (ScheduleFlow (some jobWithHistory) argsNoOverrun false).lastRunTime =
        jobWithHistory.lastRunTime ∧
      ScheduleFlow (some jobWithHistory) argsNoOverrun false = jobWithHistory := by
  refine ⟨(schedule_preserves_run_history jobWithHistory argsNoOverrun false).2.1, ?_⟩
  exact (schedule_preserves_run_history jobWithHistory argsNoOverrun
    false).2.2.2.2 rfl rfl


/-- A world whose flows all poll as RUNNING. -/
def wRunning : World :=
  { poll := fun urn => FlowState.running, start := Except.ok 9 }

/-- The record after a lifetime-exceeded termination: status TIMEOUT, no
tracked flow, everything else untouched. -/
def timedOut (j : CronJobState) : CronJobState :=
  { j with lastRunStatus := CronJobStatus.timeout, currentFlowUrn := none }

/-- The full outcome of a lifetime-exceeded termination of flow `urn` of
record `j` detected at elapsed time `e`. -/
def killedOutcome (urn : Nat) (e : Int) (j : CronJobState) : CronOutcome :=
  { job := timedOut j, flushes := [(timedOut j, true)],
    terminated := [(urn, "Cron lifetime exceeded.")], started := none,
    timeoutInc := true, failureInc := false, latencyEvents := [e],
    raised := none }

/-- C2: on a locked record whose lifetime check fires (the tracked flow
polls as running, a lifetime is set, and now minus last-run-start exceeds
it), Run terminates the current run with reason "Cron lifetime exceeded.",
sets last-run status to TIMEOUT, clears the current-run handle, persists
that update in the same flush, counts a timeout, and returns without
starting a new run — for every value of force, including force = true. -/
theorem run_lifetime_short_circuit (w : World) (now t0 urn : Nat)
    (force : Bool) (j : CronJobState)
    (hurn : j.currentFlowUrn = some urn)
    (hpoll : w.poll urn = FlowState.running)
    (ht : j.lastRunTime = some t0)
    (hlife : j.cronArgs.lifetime ≠ 0)
    (hexceed : t0 + j.cronArgs.lifetime < now) :
    Run w now true force j = killedOutcome urn ((now : Int) - (t0 : Int)) j := by
  have hrun : IsRunning w j = true := by simp [IsRunning, hurn, hpoll]
  have hcond : j.cronArgs.lifetime ≠ 0 ∧
      (now : Int) - (t0 : Int) > (j.cronArgs.lifetime : Int) :=
    ⟨hlife, by omega⟩
  have hko : KillOldFlows w now j =
      (true, killedOutcome urn ((now : Int) - (t0 : Int)) j) := by
    unfold KillOldFlows
    simp only [hrun, if_true]
    rw [ht]
    dsimp only
    rw [if_pos hcond]
    simp [StopCurrentRun, hurn, killedOutcome, timedOut]
  simp [Run, hko]

/-- C2 witness: at time 16, the sample record (run started at 10, lifetime
5) with a still-running flow is terminated by Run even with force = true. -/
theorem run_lifetime_short_circuit_witness :
    Run wRunning 16 true true jobWithHistory =
      killedOutcome 4 ((16 : Int) - (10 : Int)) jobWithHistory := by
  exact run_lifetime_short_circuit wRunning 16 10 4 true jobWithHistory
    rfl rfl rfl (by decide) (by decide)

/-- C8: with a tracked running flow, a recorded start time t0 and a nonzero
lifetime L, KillOldFlows is false (a no-op) at every time at or before
t0 + L, and at any later time it fires: it sets status TIMEOUT, clears the
current-run handle, persists, terminates the flow and counts one timeout;
and it is idempotent — on the resulting record every subsequent call, at
any time, returns false and changes nothing. -/
theorem killoldflows_boundary_idempotent (w : World) (now t0 urn : Nat)
    (j : CronJobState)
    (hurn : j.currentFlowUrn = some urn)
    (hpoll : w.poll urn = FlowState.running)
    (ht : j.lastRunTime = some t0)
    (hlife : j.cronArgs.lifetime ≠ 0) :
    (now ≤ t0 + j.cronArgs.lifetime →
        KillOldFlows w now j = (false, noEffect j)) ∧
    (t0 + j.cronArgs.lifetime < now →
        KillOldFlows w now j =
          (true, killedOutcome urn ((now : Int) - (t0 : Int)) j)) ∧
    (∀ later : Nat, KillOldFlows w later (timedOut j) =
        (false, noEffect (timedOut j))) := by
  have hrun : IsRunning w j = true := by simp [IsRunning, hurn, hpoll]
  refine ⟨fun hle => ?_, fun hlt => ?_, fun later => ?_⟩
  · have hcond : ¬(j.cronArgs.lifetime ≠ 0 ∧
        (now : Int) - (t0 : Int) > (j.cronArgs.lifetime : Int)) := by
      rintro ⟨-, hgt⟩
      omega
    unfold KillOldFlows
    simp only [hrun, if_true]
    rw [ht]
    dsimp only
    rw [if_neg hcond]
  · have hcond : j.cronArgs.lifetime ≠ 0 ∧
        (now : Int) - (t0 : Int) > (j.cronArgs.lifetime : Int) :=
      ⟨hlife, by omega⟩
    unfold KillOldFlows
    simp only [hrun, if_true]
    rw [ht]
    dsimp only
    rw [if_pos hcond]
    simp [StopCurrentRun, hurn, killedOutcome, timedOut]
  · have hnr : IsRunning w (timedOut j) = false := by
      simp [IsRunning, timedOut]
    unfold KillOldFlows
    simp [hnr]

/-- C8 witness: for the sample record (start 10, lifetime 5, flow polling
as running), KillOldFlows is false at time 15, fires at time 16, and after
firing a repeated call at time 99 is false and changes nothing. -/
theorem killoldflows_boundary_idempotent_witness :
    KillOldFlows wRunning 15 jobWithHistory = (false, noEffect jobWithHistory) ∧
    KillOldFlows wRunning 16 jobWithHistory =
      (true, killedOutcome 4 ((16 : Int) - (10 : Int)) jobWithHistory) ∧
    KillOldFlows wRunning 99 (timedOut jobWithHistory) =
      (false, noEffect (timedOut jobWithHistory)) := by
  refine ⟨?_, ?_, ?_⟩
  · exact (killoldflows_boundary_idempotent wRunning 15 10 4 jobWithHistory
      rfl rfl rfl (by decide)).1 (by decide)
  · exact (killoldflows_boundary_idempotent wRunning 16 10 4 jobWithHistory
      rfl rfl rfl (by decide)).2.1 (by decide)
  · exact (killoldflows_boundary_idempotent wRunning 99 10 4 jobWithHistory
      rfl rfl rfl (by decide)).2.2 99

/-- Any flush made by StopCurrentRun has the current-run handle cleared. -/
theorem stopCurrentRun_flush_clears (reason : String) (j s : CronJobState)
    (b : Bool) (h : (s, b) ∈ (StopCurrentRun reason j).flushes) :
    s.currentFlowUrn = none := by
  unfold StopCurrentRun at h
  cases hc : j.currentFlowUrn with
  | none => rw [hc] at h; simp [noEffect] at h
  | some urn =>
      rw [hc] at h
      simp only [List.mem_singleton, Prod.mk.injEq] at h
      rw [h.1]

/-- Any flush made by KillOldFlows has the current-run handle cleared. -/
theorem killOldFlows_flush_clears (w : World) (now : Nat) (j s : CronJobState)
    (b : Bool) (h : (s, b) ∈ (KillOldFlows w now j).2.flushes) :
    s.currentFlowUrn = none := by
  unfold KillOldFlows at h
  by_cases hr : IsRunning w j = true
  · rw [if_pos hr] at h
    cases ht : j.lastRunTime with
    | none => rw [ht] at h; simp [noEffect] at h
    | some t0 =>
        rw [ht] at h
        dsimp only at h
        split at h
        · exact stopCurrentRun_flush_clears "Cron lifetime exceeded." j s b h
        · simp [noEffect] at h
  · rw [if_neg hr] at h
    simp [noEffect] at h

/-- maybeStart only ever appends a flush whose status flag is false, so any
status-recording flush of its result was already in the accumulator. -/
theorem maybeStart_flush_true_mem (w : World) (now : Nat) (force : Bool)
    (acc : CronOutcome) (s : CronJobState)
    (h : (s, true) ∈ (maybeStart w now force acc).flushes) :
    (s, true) ∈ acc.flushes := by
  unfold maybeStart at h
  split at h
  · exact h
  · cases hs : w.start with
    | error e => rw [hs] at h; exact h
    | ok hdl =>
        rw [hs] at h
        simp only [List.mem_append, List.mem_singleton, Prod.mk.injEq] at h
        rcases h with h | h
        · exact h
        · exact absurd h.2 (by simp)

/-- Any flush of Run that records a terminal status clears the handle. -/
theorem run_flush_true_clears (w : World) (now : Nat) (locked force : Bool)
    (j s : CronJobState)
    (h : (s, true) ∈ (Run w now locked force j).flushes) :
    s.currentFlowUrn = none := by
  unfold Run at h
  by_cases hl : locked = false
  · rw [if_pos hl] at h; simp [noEffect] at h
  · rw [if_neg hl] at h
    dsimp only at h
    by_cases hk : (KillOldFlows w now j).1
    · rw [if_pos hk] at h
      exact killOldFlows_flush_clears w now j s true h
    · rw [if_neg hk] at h
      by_cases hraised : (KillOldFlows w now j).2.raised.isSome = true
      · rw [if_pos hraised] at h
        exact killOldFlows_flush_clears w now j s true h
      · rw [if_neg hraised] at h
        cases hc : j.currentFlowUrn with
        | none =>
            rw [hc] at h
            have h2 := maybeStart_flush_true_mem w now force _ s h
            simp [noEffect] at h2
        | some urn =>
            rw [hc] at h
            dsimp only at h
            split at h
            · have h2 := maybeStart_flush_true_mem w now force _ s h
              simp [noEffect] at h2
            · split at h
              · have h2 := maybeStart_flush_true_mem w now force _ s h
                simp only [List.mem_singleton, Prod.mk.injEq] at h2
                rw [h2.1]
              · cases ht : j.lastRunTime with
                | none => rw [ht] at h; simp [noEffect] at h
                | some t0 =>
                    rw [ht] at h
                    dsimp only at h
                    have h2 := maybeStart_flush_true_mem w now force _ s h
                    simp only [List.mem_singleton, Prod.mk.injEq] at h2
                    rw [h2.1]

/-- C4: whenever an operation records a terminal last-run status for the
tracked run, the same persisted update clears the current-run handle:
every status-recording flush of Run (its reconciliation and
lifetime-termination branches) and of StopCurrentRun has the handle
cleared; ScheduleFlow never touches the last-run status; Enable and
Disable change only the disabled flag. -/
theorem terminal_status_clears_handle (w : World) (now : Nat)
    (locked force : Bool) (j : CronJobState) (reason : String)
    (existing : Option CronJobState) (args : CronArgs) (d busyLease : Bool) :
    (∀ s, (s, true) ∈ (Run w now locked force j).flushes →
        s.currentFlowUrn = none) ∧
    (∀ s b, (s, b) ∈ (StopCurrentRun reason j).flushes →
        s.currentFlowUrn = none) ∧
    (ScheduleFlow existing args d).lastRunStatus =
      (Option.map CronJobState.lastRunStatus existing).getD CronJobStatus.unset ∧
    EnableJob busyLease j = Except.ok { j with disabled := false } ∧
    DisableJob busyLease j = Except.ok { j with disabled := true } := by
  refine ⟨fun s h => run_flush_true_clears w now locked force j s h,
    fun s b h => stopCurrentRun_flush_clears reason j s b h, ?_, rfl, rfl⟩
  cases existing with
  | none => rfl
  | some je =>
      unfold ScheduleFlow
      by_cases ha : args = je.cronArgs <;> by_cases hd : d = je.disabled <;>
        simp [ha, hd]

/-- C4 witness: the status-recording flush of StopCurrentRun on the sample
record indeed has its handle cleared. -/
theorem terminal_status_clears_handle_witness :
    (timedOut jobWithHistory).currentFlowUrn = none := by
  have h := (terminal_status_clears_handle wRunning 0 true false jobWithHistory
    "Cron lifetime exceeded." (some jobWithHistory) argsNoOverrun false
    false).2.1
  exact h (timedOut jobWithHistory) true (by decide)

/-- A world whose flows all poll as ERROR. -/
def wError : World :=
  { poll := fun urn => FlowState.error, start := Except.ok 9 }

/-- A world whose flows all poll as TERMINATED (completed without error). -/
def wDone : World :=
  { poll := fun urn => FlowState.terminated, start := Except.ok 9 }

/-- The record after the reconciliation step translates a terminal flow
outcome into a last-run status: the status is set and the handle cleared. -/
def reconciled (st : CronJobStatus) (j : CronJobState) : CronJobState :=
  { j with lastRunStatus := st, currentFlowUrn := none }

/-- maybeStart never changes the termination, failure, timeout or latency
effects of the steps before it. -/
theorem maybeStart_effects (w : World) (now : Nat) (force : Bool)
    (acc : CronOutcome) :
    (maybeStart w now force acc).failureInc = acc.failureInc ∧
    (maybeStart w now force acc).latencyEvents = acc.latencyEvents ∧
    (maybeStart w now force acc).terminated = acc.terminated ∧
    (maybeStart w now force acc).timeoutInc = acc.timeoutInc := by
  unfold maybeStart
  split
  · exact ⟨rfl, rfl, rfl, rfl⟩
  · cases w.start <;> exact ⟨rfl, rfl, rfl, rfl⟩

/-- maybeStart only appends flushes, so the first persisted snapshot of the
pass is the one made by the steps before it. -/
theorem maybeStart_flushes_head (w : World) (now : Nat) (force : Bool)
    (acc : CronOutcome) (h : acc.flushes ≠ []) :
    (maybeStart w now force acc).flushes.head? = acc.flushes.head? := by
  unfold maybeStart
  split
  · rfl
  · cases w.start with
    | error e => rfl
    | ok hdl =>
        cases hf : acc.flushes with
        | nil => exact absurd hf h
        | cons a as => simp [hf]

/-- maybeStart starts a flow iff forced or the (already mutated) record is
due, and then exactly the flow the executor returns. -/
theorem maybeStart_started (w : World) (now : Nat) (force : Bool)
    (acc : CronOutcome) (h : acc.started = none) :
    (maybeStart w now force acc).started =
      if force = true ∨ DueToRun acc.job now = true then Except.toOption w.start
      else none := by
  unfold maybeStart
  by_cases hc : force = false ∧ DueToRun acc.job now = false
  · rw [if_pos hc, if_neg]
    · exact h
    · rintro (hf | hd)
      · rw [hc.1] at hf; cases hf
      · rw [hc.2] at hd; cases hd
  · rw [if_neg hc, if_pos]
    · cases hs : w.start with
      | error e => rw [Except.toOption]; exact h
      | ok hdl => rfl
    · rcases Bool.eq_false_or_eq_true force with hf | hf
      · exact Or.inl hf
      · rcases Bool.eq_false_or_eq_true (DueToRun acc.job now) with hd | hd
        · exact Or.inr hd
        · exact absurd ⟨hf, hd⟩ hc


/-- C3 counterexample: when the tracked run ended in error, the
reconciliation step of Run sets status ERROR, clears the handle and counts
a failure, but records no run latency — the claim's "records the run
latency" does not hold on the error outcome (the source records latency
only in the OK branch). -/
theorem reconcile_error_no_latency_counterexample :
    (Run wError 20 true false jobWithHistory).job =
        reconciled CronJobStatus.error jobWithHistory ∧
    (Run wError 20 true false jobWithHistory).failureInc = true ∧
    (Run wError 20 true false jobWithHistory).latencyEvents = [] := by
  refine ⟨?_, ?_, ?_⟩ <;> decide

/-- C3 (amended): for a locked record with a tracked flow that the
executor reports as terminal, Run first persists the reconciliation —
status ERROR on an error outcome (counting one failure) and OK otherwise
(recording the run latency now − last-run-start; no latency is recorded on
the error outcome), with the handle cleared in that same first flush — and
only then makes the due-to-run decision, on the reconciled record. -/
theorem run_reconcile_completion (w : World) (now t0 urn : Nat)
    (force : Bool) (j : CronJobState)
    (hurn : j.currentFlowUrn = some urn)
    (hpoll : ¬ w.poll urn = FlowState.running)
    (ht : j.lastRunTime = some t0) :
    (Run w now true force j).flushes.head? =
        some (reconciled (if w.poll urn = FlowState.error then
          CronJobStatus.error else CronJobStatus.ok) j, true) ∧
    (Run w now true force j).failureInc =
        decide (w.poll urn = FlowState.error) ∧
    (Run w now true force j).latencyEvents =
        (if w.poll urn = FlowState.error then []
          else [(now : Int) - (t0 : Int)]) ∧
    (Run w now true force j).started =
        (if force = true ∨ DueToRun (reconciled (if w.poll urn =
              FlowState.error then CronJobStatus.error else CronJobStatus.ok)
            j) now = true
          then Except.toOption w.start else none) := by
  have hrun : IsRunning w j = false := by simp [IsRunning, hurn, hpoll]
  have hko : KillOldFlows w now j = (false, noEffect j) := by
    unfold KillOldFlows
    simp [hrun]
  by_cases herr : w.poll urn = FlowState.error
  · have hrn : Run w now true force j =
        maybeStart w now force
          { noEffect (reconciled CronJobStatus.error j) with
              flushes := [(reconciled CronJobStatus.error j, true)],
              failureInc := true } := by
      unfold Run
      rw [hko]
      dsimp only [noEffect]
      rw [hurn]
      dsimp only
      rw [if_neg hpoll, if_pos herr]
      rfl
    rw [hrn]
    have he := maybeStart_effects w now force
      { noEffect (reconciled CronJobStatus.error j) with
          flushes := [(reconciled CronJobStatus.error j, true)],
          failureInc := true }
    have hh := maybeStart_flushes_head w now force
      { noEffect (reconciled CronJobStatus.error j) with
          flushes := [(reconciled CronJobStatus.error j, true)],
          failureInc := true } (by simp [noEffect])
    have hs := maybeStart_started w now force
      { noEffect (reconciled CronJobStatus.error j) with
          flushes := [(reconciled CronJobStatus.error j, true)],
          failureInc := true } (by simp [noEffect])
    refine ⟨?_, ?_, ?_, ?_⟩
    · rw [hh]; simp [noEffect, herr]
    · rw [he.1]; simp [noEffect, herr]
    · rw [he.2.1]; simp [noEffect, herr]
    · rw [hs]; simp [noEffect, herr]
  · have hrn : Run w now true force j =
        maybeStart w now force
          { noEffect (reconciled CronJobStatus.ok j) with
              flushes := [(reconciled CronJobStatus.ok j, true)],
              latencyEvents := [(now : Int) - (t0 : Int)] } := by
      unfold Run
      rw [hko]
      dsimp only [noEffect]
      rw [hurn]
      dsimp only
      rw [if_neg hpoll, if_neg herr, ht]
      dsimp only
      simp [reconciled, ht]
    rw [hrn]
    have he := maybeStart_effects w now force
      { noEffect (reconciled CronJobStatus.ok j) with
          flushes := [(reconciled CronJobStatus.ok j, true)],
          latencyEvents := [(now : Int) - (t0 : Int)] }
    have hh := maybeStart_flushes_head w now force
      { noEffect (reconciled CronJobStatus.ok j) with
          flushes := [(reconciled CronJobStatus.ok j, true)],
          latencyEvents := [(now : Int) - (t0 : Int)] } (by simp [noEffect])
    have hs := maybeStart_started w now force
      { noEffect (reconciled CronJobStatus.ok j) with
          flushes := [(reconciled CronJobStatus.ok j, true)],
          latencyEvents := [(now : Int) - (t0 : Int)] } (by simp [noEffect])
    refine ⟨?_, ?_, ?_, ?_⟩
    · rw [hh]; simp [noEffect, herr]
    · rw [he.1]; simp [noEffect, herr]
    · rw [he.2.1]; simp [noEffect, herr]
    · rw [hs]; simp [noEffect, herr]

/-- C3 witness: for the sample record whose flow completed without error at
time 20, Run's first flush is the reconciled record with status OK and the
handle cleared, no failure is counted, latency 10 is recorded, and no new
run is started (not forced, not yet due). -/
theorem run_reconcile_completion_witness :
    (Run wDone 20 true false jobWithHistory).flushes.head? =
        some (reconciled (if wDone.poll 4 = FlowState.error then
          CronJobStatus.error else CronJobStatus.ok) jobWithHistory, true) ∧
    (Run wDone 20 true false jobWithHistory).failureInc =
        decide (wDone.poll 4 = FlowState.error) ∧
    (Run wDone 20 true false jobWithHistory).latencyEvents =
        (if wDone.poll 4 = FlowState.error then []
          else [(20 : Int) - (10 : Int)]) ∧
    (Run wDone 20 true false jobWithHistory).started =
        (if false = true ∨ DueToRun (reconciled (if wDone.poll 4 =
              FlowState.error then CronJobStatus.error else CronJobStatus.ok)
            jobWithHistory) 20 = true
          then Except.toOption wDone.start else none) := by
  exact run_reconcile_completion wDone 20 10 4 false jobWithHistory
    rfl (by decide) rfl

/-- An idle record: enabled, never run, nothing tracked. -/
def jobIdle : CronJobState :=
  { cronArgs := argsNoOverrun, disabled := false, currentFlowUrn := none,
    lastRunTime := none, lastRunStatus := CronJobStatus.unset, contState := 0 }

/-- A world whose executor raises on StartFlow. -/
def wFail : World :=
  { poll := fun urn => FlowState.running, start := Except.error () }

/-- A job whose processing raises: the executor fails to start its flow. -/
def envFail : JobEnv :=
  { busy := false, world := wFail, job := jobIdle }

/-- A job whose lease is held by another process. -/
def envBusy : JobEnv :=
  { busy := true, world := wRunning, job := jobWithHistory }

/-- A job that starts normally. -/
def envStart : JobEnv :=
  { busy := false, world := wRunning, job := jobIdle }

/-- RunOnce over a concatenation is the concatenation of the passes: jobs
are processed one by one and results only accumulate. -/
theorem runOnce_append (now : Nat) (force : Bool) (xs ys : List JobEnv) :
    RunOnce now force (xs ++ ys) =
      { jobs := (RunOnce now force xs).jobs ++ (RunOnce now force ys).jobs,
        internalErrors := (RunOnce now force xs).internalErrors +
          (RunOnce now force ys).internalErrors } := by
  induction xs with
  | nil => simp [RunOnce]
  | cons e rest ih => simp [RunOnce, ih, Nat.add_assoc]

/-- C6: a pass over any job list processes every job and isolates them:
the job in the middle contributes exactly its own processOne outcome and
the remaining jobs are processed as if it were not there; a Busy job is
skipped silently (record untouched, nothing counted); and any exception
raised while processing a job — executor or persistence — is caught and
turned into one internal-error count instead of propagating. -/
theorem runOnce_per_job_isolation (now : Nat) (force : Bool)
    (xs ys : List JobEnv) (e : JobEnv) :
    (RunOnce now force (xs ++ e :: ys)).jobs =
        (RunOnce now force xs).jobs ++ (processOne now force e).1 ::
          (RunOnce now force ys).jobs ∧
    (RunOnce now force (xs ++ e :: ys)).internalErrors =
        (RunOnce now force xs).internalErrors + ((processOne now force e).2 +
          (RunOnce now force ys).internalErrors) ∧
    (e.busy = true → processOne now force e = (e.job, 0)) ∧
    (e.busy = false → (Run e.world now true force e.job).raised.isSome = true →
        processOne now force e = ((Run e.world now true force e.job).job, 1)) := by
  refine ⟨?_, ?_, fun hb => ?_, fun hb hr => ?_⟩
  · rw [runOnce_append]; simp [RunOnce]
  · rw [runOnce_append]; simp [RunOnce]
  · simp [processOne, hb]
  · simp [processOne, hb, hr]

/-- C6 witness: in a concrete pass [failing job, busy job, normal job],
the failing job's executor exception is absorbed as one internal error,
the busy job is skipped untouched, and the last job is still processed. -/
theorem runOnce_per_job_isolation_witness :
    (RunOnce 5 true [envFail, envBusy, envStart]).jobs =
        (RunOnce 5 true [envFail]).jobs ++ (processOne 5 true envBusy).1 ::
          (RunOnce 5 true [envStart]).jobs ∧
    processOne 5 true envBusy = (envBusy.job, 0) ∧
    processOne 5 true envFail =
        ((Run envFail.world 5 true true envFail.job).job, 1) := by
  have h := runOnce_per_job_isolation 5 true [envFail] [envStart] envBusy
  have h2 := runOnce_per_job_isolation 5 true [] [] envFail
  exact ⟨h.1, h.2.2.1 rfl, h2.2.2.2 rfl (by decide)⟩

/-- C7 counterexample: a forced "run now" on a job whose lease another
process holds is a complete no-op — the record is unchanged, no error is
counted, and the result carries no Busy outcome at all; it is identical to
an unforced pass over the same job.  The LockError raised by the
non-blocking lock attempt is caught with `pass`, so no Busy report reaches
the caller, contrary to the claim. -/
theorem forced_runnow_busy_counterexample :
    RunOnce 100 true [envBusy] = RunOnce 100 false [envBusy] ∧
    RunOnce 100 true [envBusy] =
      { jobs := [envBusy.job], internalErrors := 0 } := by
  refine ⟨?_, ?_⟩ <;> decide

/-- C7 (amended): a forced "run now" on a single job whose lease is held
by another process silently skips the job: the LockError is caught and
ignored, the record is left untouched and no metric is incremented — no
Busy outcome is surfaced to the caller (the operation returns nothing). -/
theorem forced_runnow_busy_silent_skip (now : Nat) (force : Bool)
    (e : JobEnv) (h : e.busy = true) :
    RunOnce now force [e] = { jobs := [e.job], internalErrors := 0 } := by
  simp [RunOnce, processOne, h]

/-- C7 witness: the silent skip at a concrete busy job and time. -/
theorem forced_runnow_busy_silent_skip_witness :
    RunOnce 100 true [envBusy] =
      { jobs := [envBusy.job], internalErrors := 0 } :=
  forced_runnow_busy_silent_skip 100 true envBusy rfl
